import Mathlib

/-
Verification of the SOCR QI analysis engine (src/lib/analysisUtils.ts,
src/lib/seriesUtils.ts, src/lib/dataUtils.ts) against its specification.

Shallow embedding conventions:
* JavaScript numbers are idealized as exact rationals; the transcendental
  parts (Math.sqrt in stdDev / zScore / rmse, Math.exp in the logistic and
  Poisson fits) are expressed over the reals inside Prop-valued definitions,
  so every executable definition stays computable.
* ISO-8601 timestamp strings are idealized by their epoch-millisecond values
  (new Date(s).getTime()), of type Int; generated fractional future
  timestamps in forecasting are rationals.
* Division by zero in the rational model yields 0, which coincides with the
  intent of the sources "x / y || 0" NaN guards.
* The impure ingredients of the engine (generateId(), i.e. Math.random, and
  new Date() for the createdAt field) are made explicit as an Env record
  passed to each invocation: one invocation draws one fresh id and one clock
  reading.
* The human readable summary strings interpolated into each result are not
  modeled (they are display formatting of the numeric fields).
-/

namespace SocrQI

/-- Data point of a time series, mirroring the DataPoint interface of
src/lib/types.ts, with the timestamp idealized as epoch milliseconds. -/
structure DataPoint where
  timestamp : Int
  value : ℚ
  category : Option String := none
  subjectId : Option String := none
  seriesId : Option String := none
deriving DecidableEq

/-- Dataset, mirroring TimeSeriesData of src/lib/types.ts; formatWide encodes
whether metadata.format is the string wide. -/
structure TimeSeriesData where
  id : String
  name : String
  dataPoints : List DataPoint
  formatWide : Bool := false
deriving DecidableEq

/-- Analysis type tags dispatched on by analyzeTimeSeries. -/
inductive AnalysisType where
  | descriptive
  | regression
  | logisticRegression
  | poissonRegression
  | classification
  | forecasting
  | anomaly
deriving DecidableEq

/-- Display name of an analysis type, as interpolated into error messages. -/
def analysisTypeName : AnalysisType → String
  | .descriptive => "descriptive"
  | .regression => "regression"
  | .logisticRegression => "logistic-regression"
  | .poissonRegression => "poisson-regression"
  | .classification => "classification"
  | .forecasting => "forecasting"
  | .anomaly => "anomaly"

/-- Analysis parameters, mirroring the dynamic parameters record of
AnalysisOptions; an absent key is none. -/
structure AnalysisParameters where
  targetSeries : Option String := none
  predictorSeries : Option (List String) := none
  threshold : Option ℚ := none
  windowSize : Option ℚ := none
  forecastHorizon : Option ℚ := none
  zScoreThreshold : Option ℚ := none
  regularization : Option ℚ := none
  linkFunction : Option String := none
deriving DecidableEq

/-- Analysis options: a type tag plus its parameters. -/
structure AnalysisOptions where
  type : AnalysisType
  parameters : AnalysisParameters := {}
deriving DecidableEq

/-- JavaScript "p || d" for an optional numeric parameter: undefined and 0
are both falsy and replaced by the default. -/
def qOrDefault (x : Option ℚ) (d : ℚ) : ℚ :=
  match x with
  | none => d
  | some v => if v = 0 then d else v

/-- JavaScript "s || null" for an optional string: undefined and the empty
string are both falsy. -/
def strOrNull (x : Option String) : Option String :=
  match x with
  | none => none
  | some s => if s = "" then none else some s

/-- JavaScript "s || d" for an optional string with a default. -/
def strOrDefault (x : Option String) (d : String) : String :=
  match x with
  | none => d
  | some s => if s = "" then d else s

/-- JavaScript truthiness of an optional string field. -/
def strTruthy (x : Option String) : Bool :=
  match x with
  | none => false
  | some s => s ≠ ""

/-- Ordering of data points by timestamp, the comparator of
sortDataPointsByTime in src/lib/dataUtils.ts. -/
def timeLE (a b : DataPoint) : Prop := a.timestamp ≤ b.timestamp

instance : DecidableRel timeLE := fun a b => inferInstanceAs (Decidable (a.timestamp ≤ b.timestamp))

instance : IsTotal DataPoint timeLE := ⟨fun a b => le_total a.timestamp b.timestamp⟩

instance : IsTrans DataPoint timeLE := ⟨fun _ _ _ h h' => le_trans h h'⟩

/-- Chronological sort of data points (sortDataPointsByTime of
src/lib/dataUtils.ts); the JavaScript engine sort is stable, modeled by
insertion sort. -/
def sortDataPointsByTime (dataPoints : List DataPoint) : List DataPoint :=
  dataPoints.insertionSort timeLE

/-- Extraction of the points of one named series (extractSeriesData of
src/lib/seriesUtils.ts). -/
def extractSeriesData (data : TimeSeriesData) (seriesId : String) : List DataPoint :=
  if data.formatWide || data.dataPoints.any (fun p => strTruthy p.seriesId) then
    data.dataPoints.filter (fun p => p.seriesId = some seriesId)
  else if data.name = seriesId then
    data.dataPoints
  else
    []

/-- Series key of a point, the JavaScript expression
point.seriesId || data.name used by filterValidAnalysisPoints. -/
def pointSeriesKey (data : TimeSeriesData) (p : DataPoint) : String :=
  strOrDefault p.seriesId data.name

/-- First-occurrence deduplication, the behaviour of collecting values into a
JavaScript Set and converting back to an array. -/
def dedupFirst : List Int → List Int :=
  List.foldl (fun acc x => if x ∈ acc then acc else acc ++ [x]) []

/-- Timestamps at which the occurrence count over the points of the requested
series equals the number of requested series (filterValidAnalysisPoints of
src/lib/seriesUtils.ts). -/
def filterValidAnalysisPoints (data : TimeSeriesData) (seriesIds : List String) : List Int :=
  let relevant := data.dataPoints.filter (fun p => seriesIds.contains (pointSeriesKey data p))
  let allTimestamps := dedupFirst (relevant.map (fun p => p.timestamp))
  allTimestamps.filter (fun ts => relevant.countP (fun p => p.timestamp = ts) = seriesIds.length)

/-- Combined series data for regression (combineSeriesForAnalysis of
src/lib/seriesUtils.ts). -/
structure CombinedSeries where
  timestamps : List Int
  targetValues : List ℚ
  predictorValues : List (List ℚ)
deriving DecidableEq

/-- Value of a predictor series at a timestamp: the first point of the series
with that timestamp, or 0 when absent (the lookup inside
combineSeriesForAnalysis). -/
def predictorValueAt (predictorPoints : List DataPoint) (ts : Int) : ℚ :=
  match predictorPoints.find? (fun p => p.timestamp = ts) with
  | some p => p.value
  | none => 0

/-- Alignment of the target series with each predictor series on the target
timestamps (combineSeriesForAnalysis of src/lib/seriesUtils.ts). -/
def combineSeriesForAnalysis (data : TimeSeriesData) (targetSeriesId : String)
    (predictorSeriesIds : List String) : CombinedSeries :=
  let targetPoints := extractSeriesData data targetSeriesId
  let timestamps := targetPoints.map (fun p => p.timestamp)
  let targetValues := targetPoints.map (fun p => p.value)
  let predictorValues := predictorSeriesIds.map (fun pid =>
    let predictorPoints := extractSeriesData data pid
    timestamps.map (fun ts => predictorValueAt predictorPoints ts))
  ⟨timestamps, targetValues, predictorValues⟩

/-- Minimum of a list of rationals as an option (empty list gives none),
modeling Math.min over a nonempty spread argument list. -/
def minQopt (l : List ℚ) : Option ℚ :=
  l.foldr (fun x m => some (match m with | none => x | some y => min x y)) none

/-- Maximum of a list of rationals as an option. -/
def maxQopt (l : List ℚ) : Option ℚ :=
  l.foldr (fun x m => some (match m with | none => x | some y => max x y)) none

/-- Math.min over a list; the sources only apply it to nonempty lists, so the
default for the empty list is irrelevant. -/
def listMinQ (l : List ℚ) : ℚ := (minQopt l).getD 0

/-- Math.max over a list. -/
def listMaxQ (l : List ℚ) : ℚ := (maxQopt l).getD 0

/-- Errors thrown by the engine, classified by the taxonomy of the
specification: structurally invalid options versus too little data. The
message carries the thrown Error message. -/
inductive AnalysisError where
  | validationError (msg : String)
  | insufficientDataError (msg : String)
deriving DecidableEq

/-- Ambient impure inputs of one analyze invocation: the random id produced
by generateId() and the clock reading taken by new Date() for createdAt. -/
structure Env where
  freshId : String
  now : Int
deriving DecidableEq

/-- Payload of a descriptive analysis (results of performDescriptiveAnalysis);
stdDev is the real square root of the variance field and is therefore not
duplicated in the computable payload. -/
structure DescriptiveResults where
  count : ℕ
  mean : ℚ
  median : ℚ
  minValue : ℚ
  maxValue : ℚ
  variance : ℚ
  q1 : ℚ
  q3 : ℚ
  iqr : ℚ
  trend : ℚ
deriving DecidableEq

/-- One per-predictor coefficient entry of a regression result. -/
structure RegressionCoefficient where
  series : String
  coefficient : ℚ
deriving DecidableEq

/-- Payload of a linear regression analysis, including the mse and rSquared
metrics; rmse is the real square root of mse and is not duplicated. -/
structure RegressionResults where
  coefficients : List RegressionCoefficient
  intercept : ℚ
  predictions : List ℚ
  timestamps : List Int
  rSquared : ℚ
  mse : ℚ
deriving DecidableEq

/-- One classification entry produced per data point. -/
structure ClassificationEntry where
  timestamp : Int
  actualValue : ℚ
  predictedClass : String
  threshold : ℚ
deriving DecidableEq

/-- Payload of a threshold classification analysis with its metrics. -/
structure ClassificationResults where
  threshold : ℚ
  classifications : List ClassificationEntry
  accuracy : ℚ
  precisionMetric : ℚ
  recallMetric : ℚ
  f1Score : ℚ
deriving DecidableEq

/-- One moving-average entry: historical entries carry the actual value,
forecast entries do not. Generated future timestamps can be fractional. -/
structure MovingAveragePoint where
  timestamp : ℚ
  actual : Option ℚ
  predicted : ℚ
deriving DecidableEq

/-- Payload of a forecasting analysis with its mse and mae metrics (rmse is
the real square root of mse). -/
structure ForecastingResults where
  windowSize : ℚ
  forecastHorizon : ℚ
  movingAverages : List MovingAveragePoint
  forecast : List MovingAveragePoint
  mse : ℚ
  mae : ℚ
deriving DecidableEq

/-- Payload of an anomaly detection analysis. The per-point zScore, isAnomaly,
isAboveUCL and isBelowLCL fields and the control limits involve the real
square root of the variance; they are specified by the Prop-valued
definitions anomalyZScoreIs and anomalyIsFlagged below, as functions of the
stored points, mean, variance and threshold. -/
structure AnomalyResults where
  zScoreThreshold : ℚ
  mean : ℚ
  variance : ℚ
  points : List DataPoint
deriving DecidableEq

/-- Computable payload of a logistic regression analysis: the effective
parameters and the normalized inputs. The fitted intercept and slope are the
real-valued outcome of 1000 gradient descent steps on these inputs, specified
by the Prop-valued logisticGD relation below. -/
structure LogisticResults where
  regularization : ℚ
  threshold : ℚ
  xNorm : List ℚ
  yNorm : List ℚ
deriving DecidableEq

/-- Computable payload of a Poisson regression analysis: the effective link
function and the prepared inputs of the IRLS fit (the fitted real-valued
coefficients are determined by these inputs). -/
structure PoissonResults where
  linkFunction : String
  xNorm : List ℚ
  y : List ℚ
deriving DecidableEq

/-- Tagged union of the per-type results payloads. -/
inductive ResultsPayload where
  | descriptive (r : DescriptiveResults)
  | regression (r : RegressionResults)
  | classification (r : ClassificationResults)
  | forecasting (r : ForecastingResults)
  | anomaly (r : AnomalyResults)
  | logistic (r : LogisticResults)
  | poisson (r : PoissonResults)
deriving DecidableEq

/-- Analysis result record, mirroring AnalysisResult of src/lib/types.ts;
createdAt is the clock reading idealized as epoch milliseconds. -/
structure AnalysisResult where
  id : String
  type : AnalysisType
  timeSeriesId : String
  targetSeries : Option String
  predictorSeries : Option (List String)
  results : ResultsPayload
  createdAt : Int
deriving DecidableEq

/-- Everything of an analysis result except the impure provenance fields id
and createdAt. -/
def AnalysisResult.core (r : AnalysisResult) :
    AnalysisType × String × Option String × Option (List String) × ResultsPayload :=
  (r.type, r.timeSeriesId, r.targetSeries, r.predictorSeries, r.results)

/-- Placeholder point used to model JavaScript out-of-bounds array reads; the
guarded sources never reach it. -/
def dummyPoint : DataPoint := ⟨0, 0, none, none, none⟩

/-- Core computation of performDescriptiveAnalysis of src/lib/analysisUtils.ts
on the sorted data points. -/
def performDescriptiveCore (sortedDataPoints : List DataPoint) : DescriptiveResults :=
  let values := sortedDataPoints.map (fun p => p.value)
  let sum := values.sum
  let count := values.length
  let mean := sum / (count : ℚ)
  let variance := (values.map (fun v => (v - mean) ^ 2)).sum / (count : ℚ)
  let sortedValues := values.insertionSort (· ≤ ·)
  let minV := sortedValues.getD 0 0
  let maxV := sortedValues.getD (sortedValues.length - 1) 0
  let median :=
    if sortedValues.length % 2 = 0 then
      (sortedValues.getD (sortedValues.length / 2 - 1) 0
        + sortedValues.getD (sortedValues.length / 2) 0) / 2
    else
      sortedValues.getD (sortedValues.length / 2) 0
  let q1 := sortedValues.getD ⌊(sortedValues.length : ℚ) * (25 / 100)⌋₊ 0
  let q3 := sortedValues.getD ⌊(sortedValues.length : ℚ) * (75 / 100)⌋₊ 0
  let iqr := q3 - q1
  let trend :=
    if 1 < sortedDataPoints.length then
      let firstValue := (sortedDataPoints.getD 0 dummyPoint).value
      let lastValue := (sortedDataPoints.getD (sortedDataPoints.length - 1) dummyPoint).value
      (lastValue - firstValue) / firstValue * 100
    else
      0
  ⟨count, mean, median, minV, maxV, variance, q1, q3, iqr, trend⟩

/-- Full performDescriptiveAnalysis, attaching the result envelope. -/
def performDescriptiveAnalysis (env : Env) (data : TimeSeriesData)
    (sortedDataPoints : List DataPoint) (targetSeriesId : Option String) : AnalysisResult :=
  { id := env.freshId
    type := .descriptive
    timeSeriesId := data.id
    targetSeries := targetSeriesId
    predictorSeries := none
    results := .descriptive (performDescriptiveCore sortedDataPoints)
    createdAt := env.now }

/-- Pointwise min-max normalization used by performRegressionAnalysis:
values collapse to 0 when the range is zero. -/
def normFn (minV range val : ℚ) : ℚ :=
  if 0 < range then (val - minV) / range else 0

/-- Min-max normalization of one predictor series used by
performRegressionAnalysis. -/
def normalizeSeries (series : List ℚ) : List ℚ :=
  series.map (normFn (listMinQ series) (listMaxQ series - listMinQ series))

/-- Per-predictor simple covariance-based coefficient of
performRegressionAnalysis: each predictor is regressed independently against
the mean-centered target. -/
def coefficientFor (x y : List ℚ) : ℚ :=
  let n := y.length
  let meanY := y.sum / (n : ℚ)
  let meanX := x.sum / (n : ℚ)
  let numerator := ((x.zip y).map (fun xy => (xy.1 - meanX) * (xy.2 - meanY))).sum
  let denominator := (x.map (fun v => (v - meanX) ^ 2)).sum
  if denominator ≠ 0 then numerator / denominator else 0

/-- Linear regression (performRegressionAnalysis of src/lib/analysisUtils.ts). -/
def performRegressionAnalysis (env : Env) (data : TimeSeriesData)
    (parameters : AnalysisParameters) : Except AnalysisError AnalysisResult :=
  let targetSeriesId := parameters.targetSeries
  let predictorSeriesIds := parameters.predictorSeries.getD []
  if strOrNull targetSeriesId = none ∨ predictorSeriesIds.length = 0 then
    .error (.validationError "Regression requires a target series and at least one predictor series")
  else
    let tid := strOrDefault targetSeriesId ""
    let validSeriesIds := tid :: predictorSeriesIds
    let validTimestamps := filterValidAnalysisPoints data validSeriesIds
    if validTimestamps.length < 2 then
      .error (.insufficientDataError "Insufficient data points with values for all selected series")
    else
      let combined := combineSeriesForAnalysis data tid predictorSeriesIds
      let timestamps := combined.timestamps
      let targetValues := combined.targetValues
      let normalizedPredictors := combined.predictorValues.map normalizeSeries
      let n := targetValues.length
      let meanY := targetValues.sum / (n : ℚ)
      let coefficients := normalizedPredictors.map (fun x => coefficientFor x targetValues)
      let meanXs := normalizedPredictors.map (fun x => x.sum / (n : ℚ))
      let intercept := meanY - ((coefficients.zip meanXs).map (fun cm => cm.1 * cm.2)).sum
      let predictions := (List.range n).map (fun i =>
        intercept + ((coefficients.zip normalizedPredictors).map
          (fun cx => cx.1 * (cx.2.getD i 0))).sum)
      let errors := (targetValues.zip predictions).map (fun yp => yp.1 - yp.2)
      let squaredErrorSum := (errors.map (fun e => e * e)).sum
      let mse := squaredErrorSum / (n : ℚ)
      let totalSumOfSquares := (targetValues.map (fun v => (v - meanY) ^ 2)).sum
      let rSquared := 1 - squaredErrorSum / totalSumOfSquares
      .ok
        { id := env.freshId
          type := .regression
          timeSeriesId := data.id
          targetSeries := some tid
          predictorSeries := some predictorSeriesIds
          results := .regression
            { coefficients := (predictorSeriesIds.zip coefficients).map
                (fun sc => ⟨sc.1, sc.2⟩)
              intercept := intercept
              predictions := predictions
              timestamps := timestamps
              rSquared := rSquared
              mse := mse }
          createdAt := env.now }

/-- Threshold classification core (performClassificationAnalysis of
src/lib/analysisUtils.ts) on the sorted data points. -/
def performClassificationCore (sortedDataPoints : List DataPoint)
    (parameters : AnalysisParameters) : ClassificationResults :=
  let defaultThreshold :=
    (sortedDataPoints.map (fun p => p.value)).sum / (sortedDataPoints.length : ℚ)
  let threshold := qOrDefault parameters.threshold defaultThreshold
  let classifications := sortedDataPoints.map (fun p =>
    ⟨p.timestamp, p.value, if threshold ≤ p.value then "High Risk" else "Low Risk", threshold⟩)
  if sortedDataPoints.any (fun p => strTruthy p.category) then
    let tp := sortedDataPoints.countP
      (fun p => decide (threshold ≤ p.value) && decide (p.category = some "High Risk"))
    let fp := sortedDataPoints.countP
      (fun p => decide (threshold ≤ p.value) && ! decide (p.category = some "High Risk"))
    let tn := sortedDataPoints.countP
      (fun p => ! decide (threshold ≤ p.value) && ! decide (p.category = some "High Risk"))
    let fn := sortedDataPoints.countP
      (fun p => ! decide (threshold ≤ p.value) && decide (p.category = some "High Risk"))
    let accuracy := ((tp : ℚ) + (tn : ℚ)) / (sortedDataPoints.length : ℚ)
    let precisionV := (tp : ℚ) / ((tp : ℚ) + (fp : ℚ))
    let recallV := (tp : ℚ) / ((tp : ℚ) + (fn : ℚ))
    let f1 := 2 * (precisionV * recallV) / (precisionV + recallV)
    ⟨threshold, classifications, accuracy, precisionV, recallV, f1⟩
  else
    ⟨threshold, classifications, 0, 0, 0, 0⟩

/-- Full performClassificationAnalysis, attaching the result envelope. -/
def performClassificationAnalysis (env : Env) (data : TimeSeriesData)
    (sortedDataPoints : List DataPoint) (parameters : AnalysisParameters)
    (targetSeriesId : Option String) : AnalysisResult :=
  { id := env.freshId
    type := .classification
    timeSeriesId := data.id
    targetSeries := targetSeriesId
    predictorSeries := none
    results := .classification (performClassificationCore sortedDataPoints parameters)
    createdAt := env.now }

/-- Historical moving-average entries of performForecastingAnalysis: before a
full window the prediction is the actual value, afterwards the mean of the
trailing window. -/
def movingAveragesOf (sortedDataPoints : List DataPoint) (windowSize : ℚ) :
    List MovingAveragePoint :=
  let windowCount := ⌈windowSize⌉₊
  (List.range sortedDataPoints.length).map (fun i =>
    let p := sortedDataPoints.getD i dummyPoint
    if (i : ℚ) < windowSize - 1 then
      ⟨(p.timestamp : ℚ), some p.value, p.value⟩
    else
      let sum := ((List.range windowCount).map
        (fun j => (sortedDataPoints.getD (i - j) dummyPoint).value)).sum
      ⟨(p.timestamp : ℚ), some p.value, sum / windowSize⟩)

/-- Iterated forward forecast of performForecastingAnalysis: each new forecast
is the mean of the rolling window and is fed back into the window. -/
def forecastEntries (windowSize avgIntervalMs lastTime : ℚ) :
    ℕ → ℕ → List ℚ → List MovingAveragePoint
  | 0, _, _ => []
  | remaining + 1, i, lastValues =>
    let forecast := lastValues.sum / windowSize
    ⟨lastTime + (i : ℚ) * avgIntervalMs, none, forecast⟩ ::
      forecastEntries windowSize avgIntervalMs lastTime remaining (i + 1)
        (lastValues.drop 1 ++ [forecast])

/-- Moving-average forecasting (performForecastingAnalysis of
src/lib/analysisUtils.ts). -/
def performForecastingAnalysis (env : Env) (data : TimeSeriesData)
    (sortedDataPoints : List DataPoint) (parameters : AnalysisParameters)
    (targetSeriesId : Option String) : Except AnalysisError AnalysisResult :=
  let windowSize := qOrDefault parameters.windowSize 3
  let forecastHorizon := qOrDefault parameters.forecastHorizon 100
  let historical := movingAveragesOf sortedDataPoints windowSize
  if sortedDataPoints.length < 2 then
    .error (.insufficientDataError "Not enough data points for forecasting. Need at least 2 points.")
  else
    let lastDataPointTime := (sortedDataPoints.getLastD dummyPoint).timestamp
    let intervals : List Int := (sortedDataPoints.zip sortedDataPoints.tail).map
      (fun ab => ab.2.timestamp - ab.1.timestamp)
    let positiveIntervals := intervals.filter (fun iv => 0 < iv)
    let avgIntervalMs : ℚ :=
      if 0 < positiveIntervals.length then
        ((positiveIntervals.map (fun iv => (iv : ℚ))).sum) / (positiveIntervals.length : ℚ)
      else 86400000
    let windowCount := ⌈windowSize⌉₊
    let lastValues := (sortedDataPoints.drop (sortedDataPoints.length - windowCount)).map
      (fun p => p.value)
    let horizonCount := (⌊forecastHorizon⌋).toNat
    let future := forecastEntries windowSize avgIntervalMs (lastDataPointTime : ℚ)
      horizonCount 1 lastValues
    let movingAverages := historical ++ future
    let pointsWithActual := movingAverages.filter (fun e => e.actual.isSome)
    let errors := pointsWithActual.map (fun e => e.actual.getD 0 - e.predicted)
    let mse := (errors.map (fun e => e * e)).sum / (pointsWithActual.length : ℚ)
    let mae := (errors.map (fun e => |e|)).sum / (pointsWithActual.length : ℚ)
    .ok
      { id := env.freshId
        type := .forecasting
        timeSeriesId := data.id
        targetSeries := targetSeriesId
        predictorSeries := none
        results := .forecasting
          { windowSize := windowSize
            forecastHorizon := forecastHorizon
            movingAverages := movingAverages
            forecast := movingAverages.drop (movingAverages.length - horizonCount)
            mse := mse
            mae := mae }
        createdAt := env.now }

/-- Population mean of the values of the points analyzed by
performAnomalyDetection. -/
def anomalyMean (sortedDataPoints : List DataPoint) : ℚ :=
  (sortedDataPoints.map (fun p => p.value)).sum / (sortedDataPoints.length : ℚ)

/-- Population variance of the values of the points analyzed by
performAnomalyDetection (stdDev is its real square root). -/
def anomalyVariance (sortedDataPoints : List DataPoint) : ℚ :=
  ((sortedDataPoints.map (fun p => p.value)).map
    (fun v => (v - anomalyMean sortedDataPoints) ^ 2)).sum / (sortedDataPoints.length : ℚ)

/-- Specification of the per-point zScore of performAnomalyDetection:
(value - mean) / stdDev over the reals. -/
def anomalyZScoreIs (sortedDataPoints : List DataPoint) (p : DataPoint) (z : ℝ) : Prop :=
  z = ((p.value : ℝ) - (anomalyMean sortedDataPoints : ℝ))
    / Real.sqrt ((anomalyVariance sortedDataPoints : ℝ))

/-- Specification of the per-point isAnomaly flag of performAnomalyDetection:
the absolute zScore strictly exceeds the threshold. -/
def anomalyIsFlagged (sortedDataPoints : List DataPoint) (zScoreThreshold : ℚ)
    (p : DataPoint) : Prop :=
  |((p.value : ℝ) - (anomalyMean sortedDataPoints : ℝ))
    / Real.sqrt ((anomalyVariance sortedDataPoints : ℝ))| > (zScoreThreshold : ℝ)

/-- Z-score anomaly detection (performAnomalyDetection of
src/lib/analysisUtils.ts); the real-valued per-point flags are specified by
anomalyZScoreIs and anomalyIsFlagged over the stored fields. -/
def performAnomalyDetection (env : Env) (data : TimeSeriesData)
    (sortedDataPoints : List DataPoint) (parameters : AnalysisParameters)
    (targetSeriesId : Option String) : AnalysisResult :=
  let zScoreThreshold := qOrDefault parameters.zScoreThreshold 2
  { id := env.freshId
    type := .anomaly
    timeSeriesId := data.id
    targetSeries := targetSeriesId
    predictorSeries := none
    results := .anomaly
      { zScoreThreshold := zScoreThreshold
        mean := anomalyMean sortedDataPoints
        variance := anomalyVariance sortedDataPoints
        points := sortedDataPoints }
    createdAt := env.now }

/-- One batch gradient descent step of performLogisticRegression, over the
reals (learning rate 0.03, L2 penalty added to the slope gradient per point). -/
def logisticStep (regularization : ℚ) (xNorm yNorm : List ℚ) (b bNext : ℝ × ℝ) : Prop :=
  let n : ℝ := (xNorm.length : ℝ)
  let grad0 : ℝ := ((xNorm.zip yNorm).map (fun xy =>
    1 / (1 + Real.exp (-(b.1 + b.2 * (xy.1 : ℝ)))) - (xy.2 : ℝ))).sum / n
  let grad1 : ℝ := ((xNorm.zip yNorm).map (fun xy =>
    (1 / (1 + Real.exp (-(b.1 + b.2 * (xy.1 : ℝ)))) - (xy.2 : ℝ)) * (xy.1 : ℝ)
      + (regularization : ℝ) * b.2)).sum / n
  bNext.1 = b.1 - (3 / 100) * grad0 ∧ bNext.2 = b.2 - (3 / 100) * grad1

/-- Iterated gradient descent of performLogisticRegression: logisticGD reg
xNorm yNorm k b holds when b is the coefficient pair after k steps from
(0, 0); the fitted intercept and slope are the b with k = 1000. -/
def logisticGD (regularization : ℚ) (xNorm yNorm : List ℚ) : ℕ → ℝ × ℝ → Prop
  | 0, b => b = (0, 0)
  | k + 1, bNext => ∃ b, logisticGD regularization xNorm yNorm k b ∧
      logisticStep regularization xNorm yNorm b bNext

/-- Logistic regression (performLogisticRegression of
src/lib/analysisUtils.ts): the computable payload carries the effective
parameters and normalized inputs; the fitted coefficients are specified by
logisticGD on that payload. -/
def performLogisticRegression (env : Env) (data : TimeSeriesData)
    (parameters : AnalysisParameters) : AnalysisResult :=
  let regularization := qOrDefault parameters.regularization (1 / 10)
  let threshold := qOrDefault parameters.threshold (1 / 2)
  let x := data.dataPoints.map (fun p => (p.timestamp : ℚ))
  let y := data.dataPoints.map (fun p => p.value)
  let xMin := listMinQ x
  let xRange := listMaxQ x - xMin
  let xNorm := x.map (fun val => (val - xMin) / xRange)
  let yMax := listMaxQ y
  let yMin := listMinQ y
  let yNorm := y.map (fun val => (val - yMin) / (if 0 < yMax - yMin then yMax - yMin else 1))
  { id := env.freshId
    type := .logisticRegression
    timeSeriesId := data.id
    targetSeries := none
    predictorSeries := none
    results := .logistic
      { regularization := regularization
        threshold := threshold
        xNorm := xNorm
        yNorm := yNorm }
    createdAt := env.now }

/-- Poisson regression (performPoissonRegression of src/lib/analysisUtils.ts):
the computable payload carries the effective link function and the prepared
IRLS inputs, which determine the real-valued fit. -/
def performPoissonRegression (env : Env) (data : TimeSeriesData)
    (parameters : AnalysisParameters) : AnalysisResult :=
  let linkFunction := strOrDefault parameters.linkFunction "log"
  let x := data.dataPoints.map (fun p => (p.timestamp : ℚ))
  let y := data.dataPoints.map (fun p => max 0 p.value)
  let xMin := listMinQ x
  let xRange := listMaxQ x - xMin
  let xNorm := x.map (fun val => (val - xMin) / xRange)
  { id := env.freshId
    type := .poissonRegression
    timeSeriesId := data.id
    targetSeries := none
    predictorSeries := none
    results := .poisson
      { linkFunction := linkFunction
        xNorm := xNorm
        y := y }
    createdAt := env.now }

/-- Dispatch step of analyzeTimeSeries: route the sorted working sequence to
the routine selected by the options type. -/
def dispatchAnalysis (env : Env) (data : TimeSeriesData) (options : AnalysisOptions)
    (targetSeriesId : Option String) (sortedDataPoints : List DataPoint) :
    Except AnalysisError AnalysisResult :=
  match options.type with
  | .descriptive => .ok (performDescriptiveAnalysis env data sortedDataPoints targetSeriesId)
  | .regression => performRegressionAnalysis env data options.parameters
  | .logisticRegression => .ok (performLogisticRegression env data options.parameters)
  | .poissonRegression => .ok (performPoissonRegression env data options.parameters)
  | .classification =>
      .ok (performClassificationAnalysis env data sortedDataPoints options.parameters targetSeriesId)
  | .forecasting =>
      performForecastingAnalysis env data sortedDataPoints options.parameters targetSeriesId
  | .anomaly =>
      .ok (performAnomalyDetection env data sortedDataPoints options.parameters targetSeriesId)

/-- Analysis dispatcher (analyzeTimeSeries of src/lib/analysisUtils.ts):
validation gating, series resolution, chronological sort, dispatch. -/
def analyzeTimeSeries (env : Env) (data : TimeSeriesData) (options : AnalysisOptions) :
    Except AnalysisError AnalysisResult :=
  let targetSeriesId := strOrNull options.parameters.targetSeries
  if (options.type = .regression ∨ options.type = .logisticRegression
      ∨ options.type = .poissonRegression) ∧ targetSeriesId = none then
    .error (.validationError
      ("A target series must be selected for " ++ analysisTypeName options.type ++ " analysis"))
  else
    match targetSeriesId with
    | some tid =>
      let analysisDataPoints := extractSeriesData data tid
      if analysisDataPoints.length = 0 then
        .error (.validationError ("No data points found for series " ++ tid))
      else
        dispatchAnalysis env data options (some tid) (sortDataPointsByTime analysisDataPoints)
    | none =>
      dispatchAnalysis env data options none (sortDataPointsByTime data.dataPoints)

/-- Values of a point sequence, in order. -/
def descValues (pts : List DataPoint) : List ℚ := pts.map (fun p => p.value)

/-- Value-sorted copy of the values of a point sequence. -/
def descSortedValues (pts : List DataPoint) : List ℚ :=
  (descValues pts).insertionSort (· ≤ ·)

/-- Scenario input of the specification: values 1,2,3,4,5 in time order. -/
def examplePoints15 : List DataPoint :=
  [⟨1, 1, none, none, none⟩, ⟨2, 2, none, none, none⟩, ⟨3, 3, none, none, none⟩,
   ⟨4, 4, none, none, none⟩, ⟨5, 5, none, none, none⟩]

/-- C1: for every non-empty time-sorted input sequence, descriptive analysis
returns count = N, mean = sum/N, population variance with denominator N (and
stdDev its square root), median = the average of the two middle values of the
value-sorted copy when N is even, Q1 and Q3 = the elements at indices
floor(N*0.25) and floor(N*0.75) of the value-sorted copy, IQR = Q3 - Q1, and
trend = (last - first)/first * 100 over the time-ordered sequence; for the
input values 1,2,3,4,5 it returns mean 3, median 3, min 1, max 5,
stdDev = sqrt 2 and trend 400. -/
theorem claim1_descriptive_statistics (pts : List DataPoint) (hne : pts ≠ [])
    (hsorted : List.Sorted timeLE pts) :
    (performDescriptiveCore pts).count = pts.length
    ∧ (performDescriptiveCore pts).mean = (descValues pts).sum / (pts.length : ℚ)
    ∧ (performDescriptiveCore pts).variance
        = ((descValues pts).map
            (fun v => (v - (descValues pts).sum / (pts.length : ℚ)) ^ 2)).sum / (pts.length : ℚ)
    ∧ (pts.length % 2 = 0 →
        (performDescriptiveCore pts).median
          = ((descSortedValues pts).getD (pts.length / 2 - 1) 0
              + (descSortedValues pts).getD (pts.length / 2) 0) / 2)
    ∧ (performDescriptiveCore pts).q1
        = (descSortedValues pts).getD (⌊(pts.length : ℚ) * (25 / 100)⌋₊) 0
    ∧ (performDescriptiveCore pts).q3
        = (descSortedValues pts).getD (⌊(pts.length : ℚ) * (75 / 100)⌋₊) 0
    ∧ (performDescriptiveCore pts).iqr
        = (performDescriptiveCore pts).q3 - (performDescriptiveCore pts).q1
    ∧ (performDescriptiveCore pts).trend
        = ((pts.getD (pts.length - 1) dummyPoint).value - (pts.getD 0 dummyPoint).value)
            / (pts.getD 0 dummyPoint).value * 100
    ∧ performDescriptiveCore examplePoints15
        = { count := 5, mean := 3, median := 3, minValue := 1, maxValue := 5,
            variance := 2, q1 := 2, q3 := 4, iqr := 2, trend := 400 }
    ∧ Real.sqrt ((performDescriptiveCore examplePoints15).variance : ℝ) = Real.sqrt 2 := by
  have h14 : ⌊(5 : ℚ) / 4⌋₊ = 1 := by
    rw [Nat.floor_eq_iff (by norm_num)]
    norm_num
  have h34 : ⌊(15 : ℚ) / 4⌋₊ = 3 := by
    rw [Nat.floor_eq_iff (by norm_num)]
    norm_num
  have hconcrete : performDescriptiveCore examplePoints15
      = { count := 5, mean := 3, median := 3, minValue := 1, maxValue := 5,
          variance := 2, q1 := 2, q3 := 4, iqr := 2, trend := 400 } := by
    norm_num [performDescriptiveCore, examplePoints15, List.insertionSort,
      List.orderedInsert, h14, h34]
  refine ⟨?_, ?_, ?_, ?_, ?_, ?_, ?_, ?_, hconcrete, ?_⟩
  · simp [performDescriptiveCore, descValues]
  · simp [performDescriptiveCore, descValues]
  · simp [performDescriptiveCore, descValues]
  · intro h
    simp [performDescriptiveCore, descValues, descSortedValues, h]
  · simp [performDescriptiveCore, descValues, descSortedValues]
  · simp [performDescriptiveCore, descValues, descSortedValues]
  · simp [performDescriptiveCore, descValues, descSortedValues]
  · match pts, hne with
    | [p], _ => simp [performDescriptiveCore, sub_self]
    | p :: q :: l, _ =>
      have hlen : 1 < (p :: q :: l).length := by simp
      simp [performDescriptiveCore, if_pos hlen]
  · rw [hconcrete]
    norm_num

/-- Witness for C1 at the scenario input. -/
theorem claim1_descriptive_statistics_witness :
    (performDescriptiveCore examplePoints15).count = examplePoints15.length :=
  (claim1_descriptive_statistics examplePoints15 (by simp [examplePoints15])
    (by norm_num [examplePoints15, List.sorted_cons, timeLE])).1

/-- C2: for every dataset and options of a regression-family type whose
parameters supply no target series, analyzeTimeSeries fails with the
missing-target ValidationError and dispatches no analysis routine. -/
theorem claim2_missing_target_series (env : Env) (data : TimeSeriesData)
    (options : AnalysisOptions)
    (htype : options.type = .regression ∨ options.type = .logisticRegression
      ∨ options.type = .poissonRegression)
    (htarget : options.parameters.targetSeries = none) :
    analyzeTimeSeries env data options
      = .error (.validationError
          ("A target series must be selected for " ++ analysisTypeName options.type
            ++ " analysis")) := by
  rcases htype with h | h | h <;> simp [analyzeTimeSeries, strOrNull, htarget, h]

/-- Witness for C2: regression options without a target series. -/
theorem claim2_missing_target_series_witness :
    analyzeTimeSeries ⟨"w2", 0⟩ ⟨"d2", "n2", [], false⟩ ⟨.regression, {}⟩
      = .error (.validationError
          ("A target series must be selected for " ++ analysisTypeName .regression
            ++ " analysis")) :=
  claim2_missing_target_series ⟨"w2", 0⟩ ⟨"d2", "n2", [], false⟩ ⟨.regression, {}⟩
    (Or.inl rfl) rfl

/-- Decision of whether an engine outcome is an InsufficientDataError. -/
def isInsufficientData (r : Except AnalysisError AnalysisResult) : Prop :=
  ∃ msg, r = .error (.insufficientDataError msg)

/-- C4: forecasting fails with InsufficientDataError exactly when the resolved
input sequence has fewer than 2 data points. -/
theorem claim4_forecasting_needs_two_points (env : Env) (data : TimeSeriesData)
    (sortedDataPoints : List DataPoint) (parameters : AnalysisParameters)
    (targetSeriesId : Option String) :
    isInsufficientData
        (performForecastingAnalysis env data sortedDataPoints parameters targetSeriesId)
      ↔ sortedDataPoints.length < 2 := by
  by_cases h : sortedDataPoints.length < 2
  · simp [performForecastingAnalysis, h, isInsufficientData]
  · simp [performForecastingAnalysis, h, isInsufficientData]

/-- Counterexample input for C7: two negative values, mean -3. -/
def exampleC7Points : List DataPoint :=
  [⟨1, -2, none, none, none⟩, ⟨2, -4, none, none, none⟩]

/-- Default entry used for indexing classification lists. -/
def dummyEntry : ClassificationEntry := ⟨0, 0, "", 0⟩

/-- C7 counterexample: with supplied threshold 0 and input values -2, -4, the
first point has value -2 below the supplied threshold 0, yet it is classified
High Risk, because a supplied threshold of 0 is falsy and is replaced by the
mean -3. -/
theorem claim7_counterexample :
    ((performClassificationCore exampleC7Points
        { threshold := some 0 }).classifications.getD 0 dummyEntry).predictedClass
        = "High Risk"
    ∧ ((-2 : ℚ) < 0) := by
  constructor
  · norm_num [performClassificationCore, exampleC7Points, qOrDefault, strTruthy]
  · norm_num

/-- Effective threshold of a classification run. -/
def effectiveClassThreshold (pts : List DataPoint) (params : AnalysisParameters) : ℚ :=
  qOrDefault params.threshold ((pts.map (fun p => p.value)).sum / (pts.length : ℚ))

theorem classificationCore_threshold (pts : List DataPoint) (params : AnalysisParameters) :
    (performClassificationCore pts params).threshold = effectiveClassThreshold pts params := by
  by_cases hcat : pts.any (fun p => strTruthy p.category) <;>
    simp [performClassificationCore, effectiveClassThreshold, hcat]

theorem classificationCore_classifications (pts : List DataPoint)
    (params : AnalysisParameters) :
    (performClassificationCore pts params).classifications
      = pts.map (fun p => ⟨p.timestamp, p.value,
          if effectiveClassThreshold pts params ≤ p.value then "High Risk" else "Low Risk",
          effectiveClassThreshold pts params⟩) := by
  by_cases hcat : pts.any (fun p => strTruthy p.category) <;>
    simp [performClassificationCore, effectiveClassThreshold, hcat]

/-- C7 amended: the classification threshold defaults to the input mean when
not supplied or when supplied as 0 (a falsy number); for every supplied
nonzero threshold, each point with value at least the threshold is classified
High Risk and each point below it Low Risk, so a point whose value equals the
threshold is High Risk. -/
theorem claim7_classification_threshold (pts : List DataPoint)
    (params : AnalysisParameters) :
    ((params.threshold = none ∨ params.threshold = some 0) →
      (performClassificationCore pts params).threshold
        = (descValues pts).sum / (pts.length : ℚ))
    ∧ (∀ t : ℚ, params.threshold = some t → t ≠ 0 →
        ∀ e ∈ (performClassificationCore pts params).classifications,
          e.predictedClass = if t ≤ e.actualValue then "High Risk" else "Low Risk")
    ∧ (∀ t : ℚ, params.threshold = some t → t ≠ 0 →
        ∀ e ∈ (performClassificationCore pts params).classifications,
          e.actualValue = t → e.predictedClass = "High Risk") := by
  refine ⟨?_, ?_, ?_⟩
  · intro h
    rw [classificationCore_threshold]
    rcases h with h | h <;> simp [effectiveClassThreshold, qOrDefault, h, descValues]
  · intro t ht ht0 e he
    have hq : effectiveClassThreshold pts params = t := by
      simp [effectiveClassThreshold, qOrDefault, ht, ht0]
    rw [classificationCore_classifications, hq, List.mem_map] at he
    rcases he with ⟨p, _, rfl⟩
    rfl
  · intro t ht ht0 e he hv
    have hq : effectiveClassThreshold pts params = t := by
      simp [effectiveClassThreshold, qOrDefault, ht, ht0]
    rw [classificationCore_classifications, hq, List.mem_map] at he
    rcases he with ⟨p, _, rfl⟩
    dsimp only at hv ⊢
    rw [if_pos (le_of_eq hv.symm)]

/-- Witness for C7 amended: with no supplied threshold the default is the
mean of the inputs. -/
theorem claim7_classification_threshold_witness :
    (performClassificationCore examplePoints15 {}).threshold
      = (descValues examplePoints15).sum / (examplePoints15.length : ℚ) :=
  (claim7_classification_threshold examplePoints15 {}).1 (Or.inl rfl)

/-- Scenario input of the specification for anomaly detection: a constant
series with one outlier. -/
def exampleAnomalyPoints : List DataPoint :=
  [⟨1, 10, none, none, none⟩, ⟨2, 10, none, none, none⟩, ⟨3, 10, none, none, none⟩,
   ⟨4, 10, none, none, none⟩, ⟨5, 100, none, none, none⟩]

/-- C8: in anomaly detection a point is flagged exactly when the absolute
value of its zScore = (value - mean)/stdDev strictly exceeds the effective
zScoreThreshold, and a point whose absolute zScore equals the threshold is
not flagged; the routine stores exactly that threshold, mean and variance. -/
theorem claim8_anomaly_strict_boundary (env : Env) (data : TimeSeriesData)
    (sortedDataPoints : List DataPoint) (parameters : AnalysisParameters)
    (targetSeriesId : Option String) (p : DataPoint) (z : ℝ)
    (hz : anomalyZScoreIs sortedDataPoints p z) :
    (performAnomalyDetection env data sortedDataPoints parameters targetSeriesId).results
        = .anomaly
            { zScoreThreshold := qOrDefault parameters.zScoreThreshold 2
              mean := anomalyMean sortedDataPoints
              variance := anomalyVariance sortedDataPoints
              points := sortedDataPoints }
    ∧ (anomalyIsFlagged sortedDataPoints (qOrDefault parameters.zScoreThreshold 2) p
        ↔ |z| > ((qOrDefault parameters.zScoreThreshold 2 : ℚ) : ℝ))
    ∧ (|z| = ((qOrDefault parameters.zScoreThreshold 2 : ℚ) : ℝ)
        → ¬ anomalyIsFlagged sortedDataPoints (qOrDefault parameters.zScoreThreshold 2) p) := by
  have hiff : anomalyIsFlagged sortedDataPoints (qOrDefault parameters.zScoreThreshold 2) p
      ↔ |z| > ((qOrDefault parameters.zScoreThreshold 2 : ℚ) : ℝ) := by
    rw [anomalyIsFlagged, anomalyZScoreIs] at *
    rw [hz]
  refine ⟨rfl, hiff, ?_⟩
  intro heq hflag
  rw [hiff, heq] at hflag
  exact lt_irrefl _ hflag

/-- Witness for C8: in the outlier scenario the point with value 100 has
zScore exactly 2 = (100 - 28)/36, and with the default threshold 2 it is not
flagged as an anomaly. -/
theorem claim8_anomaly_strict_boundary_witness :
    ¬ anomalyIsFlagged exampleAnomalyPoints
        (qOrDefault (AnalysisParameters.mk none none none none none none none none).zScoreThreshold 2)
        ⟨5, 100, none, none, none⟩ := by
  have hm : anomalyMean exampleAnomalyPoints = 28 := by
    norm_num [anomalyMean, exampleAnomalyPoints]
  have hv : anomalyVariance exampleAnomalyPoints = 1296 := by
    norm_num [anomalyVariance, anomalyMean, exampleAnomalyPoints]
  have hsq : Real.sqrt ((anomalyVariance exampleAnomalyPoints : ℚ) : ℝ) = 36 := by
    rw [hv]
    have h1 : (((1296 : ℚ) : ℝ)) = 36 ^ 2 := by norm_num
    rw [h1, Real.sqrt_sq (by norm_num)]
  have hz : anomalyZScoreIs exampleAnomalyPoints ⟨5, 100, none, none, none⟩ 2 := by
    rw [anomalyZScoreIs, hsq, hm]
    norm_num
  refine (claim8_anomaly_strict_boundary ⟨"w8", 0⟩ ⟨"d8", "n8", [], false⟩
    exampleAnomalyPoints {} none ⟨5, 100, none, none, none⟩ 2 hz).2.2 ?_
  norm_num [qOrDefault]

/-- C10: a numeric parameter explicitly supplied as 0 is treated exactly as
if it were absent and replaced by the routine default: classification
threshold 0 becomes the input mean, forecasting windowSize 0 becomes 3 and
forecastHorizon 0 becomes 100, anomaly zScoreThreshold 0 becomes 2, and
logistic-regression regularization 0 becomes 0.1 while its decision threshold
0 becomes 0.5. -/
theorem claim10_zero_parameters_are_defaulted (env : Env) (data : TimeSeriesData)
    (sortedDataPoints : List DataPoint) (targetSeriesId : Option String)
    (params : AnalysisParameters) :
    performClassificationAnalysis env data sortedDataPoints
        { params with threshold := some 0 } targetSeriesId
      = performClassificationAnalysis env data sortedDataPoints
        { params with threshold := none } targetSeriesId
    ∧ performForecastingAnalysis env data sortedDataPoints
        { params with windowSize := some 0 } targetSeriesId
      = performForecastingAnalysis env data sortedDataPoints
        { params with windowSize := none } targetSeriesId
    ∧ performForecastingAnalysis env data sortedDataPoints
        { params with forecastHorizon := some 0 } targetSeriesId
      = performForecastingAnalysis env data sortedDataPoints
        { params with forecastHorizon := none } targetSeriesId
    ∧ performAnomalyDetection env data sortedDataPoints
        { params with zScoreThreshold := some 0 } targetSeriesId
      = performAnomalyDetection env data sortedDataPoints
        { params with zScoreThreshold := none } targetSeriesId
    ∧ performLogisticRegression env data { params with regularization := some 0 }
      = performLogisticRegression env data { params with regularization := none }
    ∧ performLogisticRegression env data { params with threshold := some 0 }
      = performLogisticRegression env data { params with threshold := none }
    ∧ (∀ xNorm yNorm k b,
        logisticGD (qOrDefault (some 0) (1 / 10)) xNorm yNorm k b
          ↔ logisticGD (qOrDefault none (1 / 10)) xNorm yNorm k b) := by
  have h0 : ∀ d : ℚ, qOrDefault (some 0) d = qOrDefault none d := by
    intro d
    simp [qOrDefault]
  refine ⟨?_, ?_, ?_, ?_, ?_, ?_, ?_⟩
  · simp [performClassificationAnalysis, performClassificationCore, h0]
  · simp [performForecastingAnalysis, movingAveragesOf, h0]
  · simp [performForecastingAnalysis, h0]
  · simp [performAnomalyDetection, h0]
  · simp [performLogisticRegression, h0]
  · simp [performLogisticRegression, h0]
  · intro xNorm yNorm k b
    rw [h0]

theorem sorted_getD_le_getD {l : List ℚ} (hs : l.Sorted (· ≤ ·)) {i j : ℕ}
    (hij : i ≤ j) (hj : j < l.length) : l.getD i 0 ≤ l.getD j 0 := by
  rcases eq_or_lt_of_le hij with rfl | hlt
  · exact le_refl _
  · rw [List.getD_eq_getElem l 0 (lt_trans hlt hj), List.getD_eq_getElem l 0 hj]
    exact List.pairwise_iff_getElem.mp hs i j (lt_trans hlt hj) hj hlt

theorem getD_zero_le_of_sorted {l : List ℚ} (hs : l.Sorted (· ≤ ·)) :
    ∀ x ∈ l, l.getD 0 0 ≤ x := by
  intro x hx
  rcases List.mem_iff_getElem.mp hx with ⟨i, hi, rfl⟩
  rw [← List.getD_eq_getElem l 0 hi]
  exact sorted_getD_le_getD hs (Nat.zero_le i) hi

theorem le_getD_last_of_sorted {l : List ℚ} (hs : l.Sorted (· ≤ ·)) :
    ∀ x ∈ l, x ≤ l.getD (l.length - 1) 0 := by
  intro x hx
  rcases List.mem_iff_getElem.mp hx with ⟨i, hi, rfl⟩
  rw [← List.getD_eq_getElem l 0 hi]
  exact sorted_getD_le_getD hs (by omega) (by omega)

theorem floor_quarter (n : ℕ) : ⌊(n : ℚ) * (25 / 100)⌋₊ = n / 4 := by
  have h : (n : ℚ) * (25 / 100) = (n : ℚ) / ((4 : ℕ) : ℚ) := by push_cast; ring
  rw [h, Nat.floor_div_nat, Nat.floor_natCast]

theorem floor_three_quarters (n : ℕ) : ⌊(n : ℚ) * (75 / 100)⌋₊ = 3 * n / 4 := by
  have h : (n : ℚ) * (75 / 100) = ((3 * n : ℕ) : ℚ) / ((4 : ℕ) : ℚ) := by push_cast; ring
  rw [h, Nat.floor_div_nat, Nat.floor_natCast]

theorem descriptiveCore_median (pts : List DataPoint) :
    (performDescriptiveCore pts).median
      = if (descSortedValues pts).length % 2 = 0 then
          ((descSortedValues pts).getD ((descSortedValues pts).length / 2 - 1) 0
            + (descSortedValues pts).getD ((descSortedValues pts).length / 2) 0) / 2
        else (descSortedValues pts).getD ((descSortedValues pts).length / 2) 0 := rfl

/-- C9: for every non-empty input, the descriptive statistics satisfy
min <= Q1 <= median <= Q3 <= max, variance >= 0 (hence stdDev >= 0), and
min <= mean <= max. -/
theorem claim9_descriptive_invariants (pts : List DataPoint) (hne : pts ≠ []) :
    (performDescriptiveCore pts).minValue ≤ (performDescriptiveCore pts).q1
    ∧ (performDescriptiveCore pts).q1 ≤ (performDescriptiveCore pts).median
    ∧ (performDescriptiveCore pts).median ≤ (performDescriptiveCore pts).q3
    ∧ (performDescriptiveCore pts).q3 ≤ (performDescriptiveCore pts).maxValue
    ∧ 0 ≤ (performDescriptiveCore pts).variance
    ∧ 0 ≤ Real.sqrt ((performDescriptiveCore pts).variance : ℝ)
    ∧ (performDescriptiveCore pts).minValue ≤ (performDescriptiveCore pts).mean
    ∧ (performDescriptiveCore pts).mean ≤ (performDescriptiveCore pts).maxValue := by
  have hsor : (descSortedValues pts).Sorted (· ≤ ·) :=
    List.sorted_insertionSort _ _
  have hperm : (descSortedValues pts).Perm (descValues pts) :=
    List.perm_insertionSort _ _
  have hlenv : (descValues pts).length = pts.length := by simp [descValues]
  have hlen : (descSortedValues pts).length = pts.length := by
    rw [hperm.length_eq, hlenv]
  have hn : 0 < pts.length := List.length_pos.mpr hne
  have hmin : (performDescriptiveCore pts).minValue = (descSortedValues pts).getD 0 0 := rfl
  have hmax : (performDescriptiveCore pts).maxValue
      = (descSortedValues pts).getD ((descSortedValues pts).length - 1) 0 := rfl
  have hq1 : (performDescriptiveCore pts).q1
      = (descSortedValues pts).getD (pts.length / 4) 0 := by
    show (descSortedValues pts).getD ⌊((descSortedValues pts).length : ℚ) * (25 / 100)⌋₊ 0
      = (descSortedValues pts).getD (pts.length / 4) 0
    rw [floor_quarter, hlen]
  have hq3 : (performDescriptiveCore pts).q3
      = (descSortedValues pts).getD (3 * pts.length / 4) 0 := by
    show (descSortedValues pts).getD ⌊((descSortedValues pts).length : ℚ) * (75 / 100)⌋₊ 0
      = (descSortedValues pts).getD (3 * pts.length / 4) 0
    rw [floor_three_quarters, hlen]
  have hmean : (performDescriptiveCore pts).mean
      = (descValues pts).sum / (pts.length : ℚ) := by
    show (descValues pts).sum / ((descValues pts).length : ℚ) = _
    rw [hlenv]
  have hq1q3 : (performDescriptiveCore pts).q1 ≤ (performDescriptiveCore pts).q3 := by
    rw [hq1, hq3]
    exact sorted_getD_le_getD hsor (by omega) (by omega)
  have hq1med : (performDescriptiveCore pts).q1 ≤ (performDescriptiveCore pts).median := by
    rw [hq1, descriptiveCore_median]
    by_cases hpar : (descSortedValues pts).length % 2 = 0
    · rw [if_pos hpar]
      have h1 : (descSortedValues pts).getD (pts.length / 4) 0
          ≤ (descSortedValues pts).getD ((descSortedValues pts).length / 2 - 1) 0 :=
        sorted_getD_le_getD hsor (by omega) (by omega)
      have h2 : (descSortedValues pts).getD (pts.length / 4) 0
          ≤ (descSortedValues pts).getD ((descSortedValues pts).length / 2) 0 :=
        sorted_getD_le_getD hsor (by omega) (by omega)
      linarith
    · rw [if_neg hpar]
      exact sorted_getD_le_getD hsor (by omega) (by omega)
  have hmedq3 : (performDescriptiveCore pts).median ≤ (performDescriptiveCore pts).q3 := by
    rw [hq3, descriptiveCore_median]
    by_cases hpar : (descSortedValues pts).length % 2 = 0
    · rw [if_pos hpar]
      have h1 : (descSortedValues pts).getD ((descSortedValues pts).length / 2 - 1) 0
          ≤ (descSortedValues pts).getD (3 * pts.length / 4) 0 :=
        sorted_getD_le_getD hsor (by omega) (by omega)
      have h2 : (descSortedValues pts).getD ((descSortedValues pts).length / 2) 0
          ≤ (descSortedValues pts).getD (3 * pts.length / 4) 0 :=
        sorted_getD_le_getD hsor (by omega) (by omega)
      linarith
    · rw [if_neg hpar]
      exact sorted_getD_le_getD hsor (by omega) (by omega)
  have hvar : 0 ≤ (performDescriptiveCore pts).variance := by
    show 0 ≤ ((descValues pts).map
        (fun v => (v - (descValues pts).sum / ((descValues pts).length : ℚ)) ^ 2)).sum
          / ((descValues pts).length : ℚ)
    apply div_nonneg
    · apply List.sum_nonneg
      intro x hx
      rcases List.mem_map.mp hx with ⟨v, _, rfl⟩
      positivity
    · positivity
  have hsum : (descSortedValues pts).sum = (descValues pts).sum := hperm.sum_eq
  have hminmean : (performDescriptiveCore pts).minValue ≤ (performDescriptiveCore pts).mean := by
    rw [hmin, hmean, ← hsum]
    have hle : (descSortedValues pts).length • ((descSortedValues pts).getD 0 0)
        ≤ (descSortedValues pts).sum :=
      List.card_nsmul_le_sum _ _ (getD_zero_le_of_sorted hsor)
    rw [nsmul_eq_mul, hlen] at hle
    rw [le_div_iff₀ (by positivity)]
    linarith
  have hmeanmax : (performDescriptiveCore pts).mean ≤ (performDescriptiveCore pts).maxValue := by
    rw [hmax, hmean, ← hsum]
    have hle : (descSortedValues pts).sum
        ≤ (descSortedValues pts).length
            • ((descSortedValues pts).getD ((descSortedValues pts).length - 1) 0) :=
      List.sum_le_card_nsmul _ _ (le_getD_last_of_sorted hsor)
    rw [nsmul_eq_mul] at hle
    nth_rewrite 1 [hlen] at hle
    rw [div_le_iff₀ (by positivity)]
    linarith
  refine ⟨?_, hq1med, hmedq3, ?_, hvar, Real.sqrt_nonneg _, hminmean, hmeanmax⟩
  · rw [hmin, hq1]
    exact sorted_getD_le_getD hsor (by omega) (by omega)
  · rw [hq3, hmax]
    exact sorted_getD_le_getD hsor (by omega) (by omega)

/-- Witness for C9 at the scenario input. -/
theorem claim9_descriptive_invariants_witness :
    (performDescriptiveCore examplePoints15).minValue
      ≤ (performDescriptiveCore examplePoints15).q1 :=
  (claim9_descriptive_invariants examplePoints15 (by simp [examplePoints15])).1

theorem regression_core_env (e1 e2 : Env) (data : TimeSeriesData)
    (params : AnalysisParameters) :
    (performRegressionAnalysis e1 data params).map AnalysisResult.core
      = (performRegressionAnalysis e2 data params).map AnalysisResult.core := by
  by_cases h1 : strOrNull params.targetSeries = none
      ∨ params.predictorSeries.getD [] = []
  · simp [performRegressionAnalysis, h1]
  · by_cases h2 : (filterValidAnalysisPoints data
        (strOrDefault params.targetSeries "" :: params.predictorSeries.getD [])).length < 2
    · simp [performRegressionAnalysis, h1, h2]
    · simp [performRegressionAnalysis, h1, h2, Except.map, AnalysisResult.core]

theorem forecasting_core_env (e1 e2 : Env) (data : TimeSeriesData)
    (pts : List DataPoint) (params : AnalysisParameters) (tgt : Option String) :
    (performForecastingAnalysis e1 data pts params tgt).map AnalysisResult.core
      = (performForecastingAnalysis e2 data pts params tgt).map AnalysisResult.core := by
  by_cases h : pts.length < 2
  · simp [performForecastingAnalysis, h]
  · simp [performForecastingAnalysis, h, Except.map, AnalysisResult.core]

theorem dispatch_core_env (e1 e2 : Env) (data : TimeSeriesData) (t : AnalysisType)
    (params : AnalysisParameters) (tgt : Option String) (pts : List DataPoint) :
    (dispatchAnalysis e1 data ⟨t, params⟩ tgt pts).map AnalysisResult.core
      = (dispatchAnalysis e2 data ⟨t, params⟩ tgt pts).map AnalysisResult.core := by
  cases t with
  | descriptive => rfl
  | regression => exact regression_core_env e1 e2 data params
  | logisticRegression => rfl
  | poissonRegression => rfl
  | classification => rfl
  | forecasting => exact forecasting_core_env e1 e2 data pts params tgt
  | anomaly => rfl

/-- Counterexample input for C3: a one-point dataset. -/
def exampleTinyData : TimeSeriesData := ⟨"d3", "n3", [⟨1, 1, none, none, none⟩], false⟩

/-- Descriptive options with no parameters. -/
def descriptiveOptions : AnalysisOptions := ⟨.descriptive, {}⟩

/-- C3 counterexample: two invocations of analyzeTimeSeries on the same
dataset and options return different AnalysisResult values whenever the
impure environment differs (here: two different random ids), even for the
descriptive routine, which is not time-anchored forecast generation. -/
theorem claim3_counterexample :
    analyzeTimeSeries ⟨"idA", 0⟩ exampleTinyData descriptiveOptions
      ≠ analyzeTimeSeries ⟨"idB", 0⟩ exampleTinyData descriptiveOptions := by
  intro h
  simp [analyzeTimeSeries, dispatchAnalysis, performDescriptiveAnalysis, strOrNull,
    descriptiveOptions, AnalysisResult.mk.injEq] at h

/-- C3 amended: for every fixed dataset and options, the output of
analyzeTimeSeries is identical across invocations except for the id field
(drawn from Math.random via generateId) and the createdAt clock reading,
which differ in every routine, not only in forecast generation; everything
else in the result is a function of the dataset and options alone. -/
theorem claim3_deterministic_up_to_provenance (e1 e2 : Env) (data : TimeSeriesData)
    (options : AnalysisOptions) :
    (analyzeTimeSeries e1 data options).map AnalysisResult.core
      = (analyzeTimeSeries e2 data options).map AnalysisResult.core := by
  rcases options with ⟨t, params⟩
  simp only [analyzeTimeSeries]
  by_cases hcond : (t = AnalysisType.regression ∨ t = AnalysisType.logisticRegression
      ∨ t = AnalysisType.poissonRegression) ∧ strOrNull params.targetSeries = none
  · rw [if_pos hcond, if_pos hcond]
  · rw [if_neg hcond, if_neg hcond]
    cases hts : strOrNull params.targetSeries with
    | none => exact dispatch_core_env e1 e2 data t params none _
    | some tid =>
      by_cases hemp : (extractSeriesData data tid).length = 0
      · simp [hemp]
      · dsimp only
        rw [if_neg hemp, if_neg hemp]
        exact dispatch_core_env e1 e2 data t params (some tid) _

/-- Existence of at least one point of the named series at the timestamp. -/
def seriesHasPointAt (data : TimeSeriesData) (s : String) (ts : Int) : Prop :=
  ∃ p ∈ data.dataPoints, pointSeriesKey data p = s ∧ p.timestamp = ts

instance (data : TimeSeriesData) (s : String) (ts : Int) :
    Decidable (seriesHasPointAt data s ts) :=
  inferInstanceAs (Decidable (∃ p ∈ data.dataPoints, _ ∧ _))

theorem mem_foldl_dedup (x : Int) (l acc : List Int) :
    x ∈ List.foldl (fun a y => if y ∈ a then a else a ++ [y]) acc l ↔ x ∈ acc ∨ x ∈ l := by
  induction l generalizing acc with
  | nil => simp
  | cons a l ih =>
    rw [List.foldl_cons]
    by_cases h : a ∈ acc
    · rw [if_pos h, ih]
      simp only [List.mem_cons]
      constructor
      · rintro (hx | hx)
        · exact Or.inl hx
        · exact Or.inr (Or.inr hx)
      · rintro (hx | rfl | hx)
        · exact Or.inl hx
        · exact Or.inl h
        · exact Or.inr hx
    · rw [if_neg h, ih]
      simp only [List.mem_append, List.mem_singleton, List.mem_cons]
      tauto

theorem mem_dedupFirst (x : Int) (l : List Int) : x ∈ dedupFirst l ↔ x ∈ l := by
  rw [dedupFirst, mem_foldl_dedup]
  simp

/-- Counterexample input for C5: two points of the same series at the same
timestamp. -/
def exampleC5Data : TimeSeriesData :=
  ⟨"d5", "n5", [⟨1, 1, none, none, some "A"⟩, ⟨1, 2, none, none, some "A"⟩], false⟩

/-- C5 counterexample: with two points of series A at timestamp 1 and the
request [A, B], the occurrence count at timestamp 1 is 2 = number of
requested series, so timestamp 1 is returned although series B has no point
there. -/
theorem claim5_counterexample :
    (1 : Int) ∈ filterValidAnalysisPoints exampleC5Data ["A", "B"]
    ∧ ¬ seriesHasPointAt exampleC5Data "B" 1 := by
  constructor
  · decide
  · decide

theorem countP_timestamp_eq (data : TimeSeriesData) (ids : List String) (ts : Int)
    (hnodup : ids.Nodup)
    (hatmost : data.dataPoints.Pairwise
      (fun p q => pointSeriesKey data p = pointSeriesKey data q
        → p.timestamp ≠ q.timestamp)) :
    (data.dataPoints.filter (fun p => ids.contains (pointSeriesKey data p))).countP
        (fun p => p.timestamp = ts)
      = (ids.filter (fun s => decide (seriesHasPointAt data s ts))).length := by
  rw [List.countP_eq_length_filter]
  have hsub : ((data.dataPoints.filter
        (fun p => ids.contains (pointSeriesKey data p))).filter
          (fun p => decide (p.timestamp = ts))).Sublist data.dataPoints :=
    (List.filter_sublist _).trans (List.filter_sublist _)
  have hpwL := hatmost.sublist hsub
  have htsL : ∀ p ∈ (data.dataPoints.filter
      (fun p => ids.contains (pointSeriesKey data p))).filter
        (fun p => decide (p.timestamp = ts)), p.timestamp = ts := by
    intro p hp
    have := (List.mem_filter.mp hp).2
    simpa using this
  have hkeys : ((data.dataPoints.filter
      (fun p => ids.contains (pointSeriesKey data p))).filter
        (fun p => decide (p.timestamp = ts))).Pairwise
      (fun p q => pointSeriesKey data p ≠ pointSeriesKey data q) := by
    refine hpwL.imp_of_mem ?_
    intro p q hp hq hr hk
    exact hr hk ((htsL p hp).trans (htsL q hq).symm)
  have hnodupL : (((data.dataPoints.filter
      (fun p => ids.contains (pointSeriesKey data p))).filter
        (fun p => decide (p.timestamp = ts))).map (pointSeriesKey data)).Nodup :=
    hkeys.map _ (fun _ _ h => h)
  have hnodupR : (ids.filter (fun s => decide (seriesHasPointAt data s ts))).Nodup :=
    hnodup.filter _
  have hmem : ∀ s : String,
      s ∈ ((data.dataPoints.filter
          (fun p => ids.contains (pointSeriesKey data p))).filter
            (fun p => decide (p.timestamp = ts))).map (pointSeriesKey data)
        ↔ s ∈ ids.filter (fun s => decide (seriesHasPointAt data s ts)) := by
    intro s
    rw [List.mem_map, List.mem_filter]
    constructor
    · rintro ⟨p, hp, rfl⟩
      rcases List.mem_filter.mp hp with ⟨hp1, hpts⟩
      rcases List.mem_filter.mp hp1 with ⟨hpd, hpc⟩
      refine ⟨List.elem_iff.mp hpc, ?_⟩
      simp only [decide_eq_true_eq]
      exact ⟨p, hpd, rfl, by simpa using hpts⟩
    · rintro ⟨hs, hhas⟩
      simp only [decide_eq_true_eq] at hhas
      rcases hhas with ⟨p, hpd, hkey, hpts⟩
      refine ⟨p, ?_, hkey⟩
      rw [List.mem_filter]
      refine ⟨List.mem_filter.mpr ⟨hpd, ?_⟩, by simpa using hpts⟩
      rw [hkey]
      exact List.elem_iff.mpr hs
  have hperm := (List.perm_ext_iff_of_nodup hnodupL hnodupR).mpr hmem
  have := hperm.length_eq
  rw [List.length_map] at this
  exact this

/-- C5 amended: filterValidAnalysisPoints returns the timestamps whose
occurrence count over the points of the requested series equals the number of
requested series; when the requested ids are pairwise distinct and no series
has two points at one timestamp, these are exactly the timestamps carrying at
least one requested point at which every requested series has at least one
point. Regression invoked with a target and at least one predictor fails with
InsufficientDataError whenever fewer than 2 such timestamps exist. -/
theorem claim5_filter_valid_timestamps (data : TimeSeriesData) (ids : List String)
    (hnodup : ids.Nodup)
    (hatmost : data.dataPoints.Pairwise
      (fun p q => pointSeriesKey data p = pointSeriesKey data q
        → p.timestamp ≠ q.timestamp)) :
    (∀ ts : Int, ts ∈ filterValidAnalysisPoints data ids ↔
      ((∃ p ∈ data.dataPoints, pointSeriesKey data p ∈ ids ∧ p.timestamp = ts)
        ∧ ∀ s ∈ ids, seriesHasPointAt data s ts))
    ∧ (∀ (env : Env) (params : AnalysisParameters) (t : String) (preds : List String),
        params.targetSeries = some t → t ≠ "" → params.predictorSeries = some preds →
        preds ≠ [] → (filterValidAnalysisPoints data (t :: preds)).length < 2 →
        performRegressionAnalysis env data params
          = .error (.insufficientDataError
              "Insufficient data points with values for all selected series")) := by
  constructor
  · intro ts
    rw [filterValidAnalysisPoints]
    rw [List.mem_filter]
    rw [mem_dedupFirst]
    rw [List.mem_map]
    rw [countP_timestamp_eq data ids ts hnodup hatmost]
    constructor
    · rintro ⟨⟨p, hp, hpts⟩, hcount⟩
      rcases List.mem_filter.mp hp with ⟨hpd, hpc⟩
      refine ⟨⟨p, hpd, List.elem_iff.mp hpc, hpts⟩, ?_⟩
      intro s hs
      have hlen : (ids.filter (fun s => decide (seriesHasPointAt data s ts))).length
          = ids.length := by simpa using hcount
      have hall := List.countP_eq_length.mp
        (by rw [List.countP_eq_length_filter]; exact hlen)
        s hs
      simpa using hall
    · rintro ⟨⟨p, hpd, hpk, hpts⟩, hall⟩
      constructor
      · refine ⟨p, List.mem_filter.mpr ⟨hpd, List.elem_iff.mpr hpk⟩, hpts⟩
      · have : (ids.filter (fun s => decide (seriesHasPointAt data s ts))).length
            = ids.length := by
          rw [← List.countP_eq_length_filter]
          exact List.countP_eq_length.mpr (fun s hs => by simpa using hall s hs)
        simpa using this
  · intro env params t preds ht ht0 hp hpne hlt
    have h1 : ¬(strOrNull params.targetSeries = none ∨ preds.length = 0) := by
      simp [strOrNull, ht, ht0, List.length_eq_zero, hpne]
    have hsd : strOrDefault params.targetSeries "" = t := by
      simp [strOrDefault, ht, ht0]
    simp only [performRegressionAnalysis, hsd, hp, Option.getD_some]
    rw [if_neg h1, if_pos hlt]

/-- Aligned two-series dataset used as the C5 and C6 witness input. -/
def exampleRegData : TimeSeriesData :=
  ⟨"d6", "n6", [⟨1, 1, none, none, some "T"⟩, ⟨1, 0, none, none, some "P"⟩,
                ⟨2, 3, none, none, some "T"⟩, ⟨2, 1, none, none, some "P"⟩], false⟩

/-- Witness for C5 amended: timestamp 1 is valid for the request [T, P]. -/
theorem claim5_filter_valid_timestamps_witness :
    (1 : Int) ∈ filterValidAnalysisPoints exampleRegData ["T", "P"] :=
  ((claim5_filter_valid_timestamps exampleRegData ["T", "P"] (by decide)
      (by decide)).1 1).mpr ⟨by decide, by decide⟩

theorem perm_any {α : Type} {l₁ l₂ : List α} (h : l₁.Perm l₂) (p : α → Bool) :
    l₁.any p = l₂.any p := by
  cases h2 : l₂.any p
  · cases h1 : l₁.any p
    · rfl
    · rcases List.any_eq_true.mp h1 with ⟨x, hx, hpx⟩
      have : l₂.any p = true := List.any_eq_true.mpr ⟨x, h.mem_iff.mp hx, hpx⟩
      rw [this] at h2
      exact absurd h2 (by simp)
  · rcases List.any_eq_true.mp h2 with ⟨x, hx, hpx⟩
    exact List.any_eq_true.mpr ⟨x, h.mem_iff.mpr hx, hpx⟩

theorem extract_perm (i n : String) (f : Bool) {dp dp' : List DataPoint}
    (hperm : dp'.Perm dp) (s : String) :
    (extractSeriesData ⟨i, n, dp', f⟩ s).Perm (extractSeriesData ⟨i, n, dp, f⟩ s) := by
  rw [extractSeriesData, extractSeriesData]
  simp only
  rw [perm_any hperm (fun p => strTruthy p.seriesId)]
  by_cases h1 : f || dp.any (fun p => strTruthy p.seriesId)
  · rw [if_pos h1, if_pos h1]
    exact hperm.filter _
  · rw [if_neg h1, if_neg h1]
    by_cases h2 : n = s
    · rw [if_pos h2, if_pos h2]
      exact hperm
    · rw [if_neg h2, if_neg h2]

theorem extract_sublist (data : TimeSeriesData) (s : String) :
    (extractSeriesData data s).Sublist data.dataPoints := by
  rw [extractSeriesData]
  by_cases h1 : data.formatWide || data.dataPoints.any (fun p => strTruthy p.seriesId)
  · rw [if_pos h1]
    exact List.filter_sublist _
  · rw [if_neg h1]
    by_cases h2 : data.name = s
    · rw [if_pos h2]
    · rw [if_neg h2]
      exact List.nil_sublist _

theorem extract_keys_eq (data : TimeSeriesData) (s : String) :
    ∀ p ∈ extractSeriesData data s, ∀ q ∈ extractSeriesData data s,
      pointSeriesKey data p = pointSeriesKey data q := by
  intro p hp q hq
  rw [extractSeriesData] at hp hq
  by_cases h1 : data.formatWide || data.dataPoints.any (fun p => strTruthy p.seriesId)
  · rw [if_pos h1] at hp hq
    have hps := (List.mem_filter.mp hp).2
    have hqs := (List.mem_filter.mp hq).2
    simp only [decide_eq_true_eq] at hps hqs
    rw [pointSeriesKey, pointSeriesKey, hps, hqs]
  · rw [if_neg h1] at hp hq
    have hnone : ∀ r ∈ data.dataPoints, strTruthy r.seriesId = false := by
      intro r hr
      by_contra hcon
      have : data.dataPoints.any (fun p => strTruthy p.seriesId) = true :=
        List.any_eq_true.mpr ⟨r, hr, by revert hcon; cases strTruthy r.seriesId <;> simp⟩
      simp [this] at h1
    by_cases h2 : data.name = s
    · rw [if_pos h2] at hp hq
      have hkey : ∀ r ∈ data.dataPoints, pointSeriesKey data r = data.name := by
        intro r hr
        have := hnone r hr
        rw [pointSeriesKey]
        rcases hsr : r.seriesId with _ | v
        · rfl
        · rw [hsr] at this
          rw [strTruthy] at this
          simp only [decide_eq_false_iff_not, not_not] at this
          rw [strOrDefault, this]
          simp
      rw [hkey p hp, hkey q hq]
    · rw [if_neg h2] at hp hq
      exact absurd hp (List.not_mem_nil p)

theorem pairwise_two_of_mem {α : Type} {R : α → α → Prop} (hsymm : ∀ {x y}, R x y → R y x)
    {l : List α} (h : l.Pairwise R) {p q : α} (hp : p ∈ l) (hq : q ∈ l)
    (hne : ¬ R p q) : p = q := by
  by_contra hpq
  rcases List.mem_iff_getElem.mp hp with ⟨a, ha, rfl⟩
  rcases List.mem_iff_getElem.mp hq with ⟨b, hb, rfl⟩
  rcases lt_trichotomy a b with hab | hab | hab
  · exact hne (List.pairwise_iff_getElem.mp h a b ha hb hab)
  · exact hpq (by subst hab; rfl)
  · exact hne (hsymm (List.pairwise_iff_getElem.mp h b a hb ha hab))

theorem extract_unique_at (data : TimeSeriesData)
    (hatmost : data.dataPoints.Pairwise
      (fun p q => pointSeriesKey data p = pointSeriesKey data q
        → p.timestamp ≠ q.timestamp))
    (s : String) (ts : Int) :
    ∀ p ∈ extractSeriesData data s, ∀ q ∈ extractSeriesData data s,
      p.timestamp = ts → q.timestamp = ts → p = q := by
  intro p hp q hq hpts hqts
  have hpw : (extractSeriesData data s).Pairwise
      (fun p q => pointSeriesKey data p = pointSeriesKey data q
        → p.timestamp ≠ q.timestamp) :=
    hatmost.sublist (extract_sublist data s)
  refine pairwise_two_of_mem (fun {x y} hxy hk => (hxy hk.symm).symm) hpw hp hq ?_
  intro hR
  exact hR (extract_keys_eq data s p hp q hq) (hpts.trans hqts.symm)

theorem find?_perm_unique {α : Type} {l l' : List α} (h : l'.Perm l) (P : α → Bool)
    (hu : ∀ a ∈ l, ∀ b ∈ l, P a → P b → a = b) : l'.find? P = l.find? P := by
  cases hf : l'.find? P with
  | none =>
    have hnone := List.find?_eq_none.mp hf
    symm
    exact List.find?_eq_none.mpr (fun x hx => hnone x (h.mem_iff.mpr hx))
  | some a =>
    have ha : a ∈ l := h.mem_iff.mp (List.mem_of_find?_eq_some hf)
    have hpa := List.find?_some hf
    cases hf' : l.find? P with
    | none => exact absurd hpa (by simpa using List.find?_eq_none.mp hf' a ha)
    | some b =>
      have hb := List.mem_of_find?_eq_some hf'
      have hpb := List.find?_some hf'
      rw [hu a ha b hb hpa hpb]

theorem predictorValueAt_perm (i n : String) (f : Bool) {dp dp' : List DataPoint}
    (hperm : dp'.Perm dp)
    (hatmost : dp.Pairwise
      (fun p q => strOrDefault p.seriesId n = strOrDefault q.seriesId n
        → p.timestamp ≠ q.timestamp))
    (s : String) (ts : Int) :
    predictorValueAt (extractSeriesData ⟨i, n, dp', f⟩ s) ts
      = predictorValueAt (extractSeriesData ⟨i, n, dp, f⟩ s) ts := by
  rw [predictorValueAt, predictorValueAt]
  rw [find?_perm_unique (extract_perm i n f hperm s) _
    (fun a ha b hb hpa hpb =>
      extract_unique_at ⟨i, n, dp, f⟩ hatmost s ts a ha b hb
        (by simpa using hpa) (by simpa using hpb))]

theorem minQopt_perm {l₁ l₂ : List ℚ} (h : l₁.Perm l₂) : minQopt l₁ = minQopt l₂ := by
  rw [minQopt, minQopt]
  exact @List.Perm.foldr_eq _ _ _ _ _
    ⟨by
      intro a b m
      cases m with
      | none => simp [min_comm]
      | some y => simp [min_left_comm]⟩ h none

theorem maxQopt_perm {l₁ l₂ : List ℚ} (h : l₁.Perm l₂) : maxQopt l₁ = maxQopt l₂ := by
  rw [maxQopt, maxQopt]
  exact @List.Perm.foldr_eq _ _ _ _ _
    ⟨by
      intro a b m
      cases m with
      | none => simp [max_comm]
      | some y => simp [max_left_comm]⟩ h none

theorem listMinQ_perm {l₁ l₂ : List ℚ} (h : l₁.Perm l₂) : listMinQ l₁ = listMinQ l₂ := by
  rw [listMinQ, listMinQ, minQopt_perm h]

theorem listMaxQ_perm {l₁ l₂ : List ℚ} (h : l₁.Perm l₂) : listMaxQ l₁ = listMaxQ l₂ := by
  rw [listMaxQ, listMaxQ, maxQopt_perm h]

theorem nodup_foldl_dedup (l : List Int) : ∀ acc : List Int, acc.Nodup →
    (List.foldl (fun a y => if y ∈ a then a else a ++ [y]) acc l).Nodup := by
  induction l with
  | nil => intro acc hacc; simpa using hacc
  | cons a l ih =>
    intro acc hacc
    rw [List.foldl_cons]
    by_cases h : a ∈ acc
    · rw [if_pos h]; exact ih acc hacc
    · rw [if_neg h]
      refine ih _ ?_
      simpa [List.nodup_append] using ⟨hacc, h⟩

theorem nodup_dedupFirst (l : List Int) : (dedupFirst l).Nodup :=
  nodup_foldl_dedup l [] List.nodup_nil

theorem dedupFirst_perm {l₁ l₂ : List Int} (h : l₁.Perm l₂) :
    (dedupFirst l₁).Perm (dedupFirst l₂) := by
  rw [List.perm_ext_iff_of_nodup (nodup_dedupFirst l₁) (nodup_dedupFirst l₂)]
  intro x
  rw [mem_dedupFirst, mem_dedupFirst]
  exact h.mem_iff

theorem filterValid_perm (i n : String) (f : Bool) {dp dp' : List DataPoint}
    (hperm : dp'.Perm dp) (ids : List String) :
    (filterValidAnalysisPoints ⟨i, n, dp', f⟩ ids).Perm
      (filterValidAnalysisPoints ⟨i, n, dp, f⟩ ids) := by
  rw [filterValidAnalysisPoints, filterValidAnalysisPoints]
  simp only
  have hrel : (dp'.filter (fun p => ids.contains (pointSeriesKey ⟨i, n, dp', f⟩ p))).Perm
      (dp.filter (fun p => ids.contains (pointSeriesKey ⟨i, n, dp, f⟩ p))) :=
    hperm.filter _
  have hded := dedupFirst_perm (hrel.map (fun p => p.timestamp))
  have hcfun : (fun ts : Int =>
        decide ((dp'.filter
            (fun p => ids.contains (pointSeriesKey ⟨i, n, dp', f⟩ p))).countP
          (fun p => p.timestamp = ts) = ids.length))
      = (fun ts : Int =>
        decide ((dp.filter
            (fun p => ids.contains (pointSeriesKey ⟨i, n, dp, f⟩ p))).countP
          (fun p => p.timestamp = ts) = ids.length)) := by
    funext ts
    rw [hrel.countP_eq]
  rw [hcfun]
  exact hded.filter _

theorem eq_of_perm_sorted_distinct : ∀ (l₁ l₂ : List DataPoint), l₁.Perm l₂ →
    l₁.Sorted timeLE → l₂.Sorted timeLE →
    l₁.Pairwise (fun p q => p.timestamp ≠ q.timestamp) → l₁ = l₂ := by
  intro l₁
  induction l₁ with
  | nil =>
    intro l₂ hp _ _ _
    exact List.Perm.nil_eq hp
  | cons a t ih =>
    intro l₂ hp hs₁ hs₂ hd
    cases l₂ with
    | nil => exact absurd (List.Perm.nil_eq hp.symm) (by simp)
    | cons b t₂ =>
      have hab : a = b := by
        have hamem : a ∈ b :: t₂ := hp.mem_iff.mp (List.mem_cons_self a t)
        have hbmem : b ∈ a :: t := hp.mem_iff.mpr (List.mem_cons_self b t₂)
        rcases List.mem_cons.mp hamem with h | hat₂
        · exact h
        rcases List.mem_cons.mp hbmem with h | hbt
        · exact h.symm
        have h1 : a.timestamp ≤ b.timestamp := (List.sorted_cons.mp hs₁).1 b hbt
        have h2 : b.timestamp ≤ a.timestamp := (List.sorted_cons.mp hs₂).1 a hat₂
        have heq : a.timestamp = b.timestamp := le_antisymm h1 h2
        have hne : a.timestamp ≠ b.timestamp := (List.pairwise_cons.mp hd).1 b hbt
        exact absurd heq hne
      subst hab
      have ht : t.Perm t₂ := hp.cons_inv
      rw [ih t₂ ht (List.sorted_cons.mp hs₁).2 (List.sorted_cons.mp hs₂).2
        (List.pairwise_cons.mp hd).2]

theorem sortDataPointsByTime_perm_eq {dp dp' : List DataPoint} (hperm : dp'.Perm dp)
    (hdist : dp.Pairwise (fun p q => p.timestamp ≠ q.timestamp)) :
    sortDataPointsByTime dp' = sortDataPointsByTime dp := by
  have hsymm : ∀ {x y : DataPoint}, x.timestamp ≠ y.timestamp → y.timestamp ≠ x.timestamp :=
    fun h => h.symm
  apply eq_of_perm_sorted_distinct
  · exact (List.perm_insertionSort timeLE dp').trans
      (hperm.trans (List.perm_insertionSort timeLE dp).symm)
  · exact List.sorted_insertionSort timeLE dp'
  · exact List.sorted_insertionSort timeLE dp
  · have h1 : dp'.Pairwise (fun p q => p.timestamp ≠ q.timestamp) :=
      (hperm.pairwise_iff hsymm).mpr hdist
    exact ((List.perm_insertionSort timeLE dp').pairwise_iff hsymm).mpr h1

/-- Scalar outputs of a regression result: per-predictor coefficients,
intercept, rSquared and mse (rmse is determined by mse). -/
def regressionScalars (r : AnalysisResult) : Option (List RegressionCoefficient × ℚ × ℚ × ℚ) :=
  match r.results with
  | .regression rr => some (rr.coefficients, rr.intercept, rr.rSquared, rr.mse)
  | _ => none

theorem coefficientFor_map_perm {α : Type} {L L' : List α} (h : L'.Perm L)
    (g v : α → ℚ) :
    coefficientFor (L'.map g) (L'.map v) = coefficientFor (L.map g) (L.map v) := by
  have hsum : ∀ F : α → ℚ, (L'.map F).sum = (L.map F).sum := fun F => (h.map F).sum_eq
  have hlen : ∀ F : α → ℚ, (L'.map F).length = (L.map F).length := fun F => (h.map F).length_eq
  simp only [coefficientFor, List.zip_map', List.map_map, hsum, hlen]

theorem range_map_pred {α β : Type} (L : List α) (v : α → ℚ) (c : ℚ)
    (js : List β) (C : β → ℚ) (G : β → α → ℚ) :
    (List.range (L.map v).length).map (fun i =>
        c + (js.map (fun j => C j * (L.map (G j)).getD i 0)).sum)
      = L.map (fun a => c + (js.map (fun j => C j * G j a)).sum) := by
  apply List.ext_getElem
  · simp
  · intro k hk hk'
    have hkL : k < L.length := by simpa using hk'
    simp only [List.getElem_map, List.getElem_range]
    congr 1
    refine congrArg List.sum (List.map_congr_left ?_)
    intro j hj
    congr 1
    rw [List.getD_eq_getElem (L.map (G j)) 0 (by simpa using hkL), List.getElem_map]

theorem regression_scalars_perm (env : Env) (i n : String) (f : Bool)
    {dp dp' : List DataPoint} (hperm : dp'.Perm dp)
    (hatmost : dp.Pairwise
      (fun p q => strOrDefault p.seriesId n = strOrDefault q.seriesId n
        → p.timestamp ≠ q.timestamp))
    (params : AnalysisParameters) :
    (performRegressionAnalysis env ⟨i, n, dp', f⟩ params).map regressionScalars
      = (performRegressionAnalysis env ⟨i, n, dp, f⟩ params).map regressionScalars := by
  by_cases h1 : strOrNull params.targetSeries = none
      ∨ (params.predictorSeries.getD []).length = 0
  · simp only [performRegressionAnalysis]
    rw [if_pos h1, if_pos h1]
  · have hvl := (filterValid_perm i n f hperm
      (strOrDefault params.targetSeries "" :: params.predictorSeries.getD [])).length_eq
    by_cases h2 : (filterValidAnalysisPoints ⟨i, n, dp, f⟩
        (strOrDefault params.targetSeries "" :: params.predictorSeries.getD [])).length < 2
    · simp only [performRegressionAnalysis]
      rw [if_neg h1, if_neg h1, hvl, if_pos h2, if_pos h2]
    · have hL : (extractSeriesData ⟨i, n, dp', f⟩
          (strOrDefault params.targetSeries "")).Perm
          (extractSeriesData ⟨i, n, dp, f⟩ (strOrDefault params.targetSeries "")) :=
        extract_perm i n f hperm _
      have hlook : ∀ (s : String) (τ : Int),
          predictorValueAt (extractSeriesData ⟨i, n, dp', f⟩ s) τ
            = predictorValueAt (extractSeriesData ⟨i, n, dp, f⟩ s) τ :=
        fun s τ => predictorValueAt_perm i n f hperm hatmost s τ
      have hsum : ∀ F : DataPoint → ℚ,
          ((extractSeriesData ⟨i, n, dp', f⟩ (strOrDefault params.targetSeries "")).map F).sum
            = ((extractSeriesData ⟨i, n, dp, f⟩
                (strOrDefault params.targetSeries "")).map F).sum :=
        fun F => (hL.map F).sum_eq
      have hlen : ∀ F : DataPoint → ℚ,
          ((extractSeriesData ⟨i, n, dp', f⟩
              (strOrDefault params.targetSeries "")).map F).length
            = ((extractSeriesData ⟨i, n, dp, f⟩
                (strOrDefault params.targetSeries "")).map F).length :=
        fun F => (hL.map F).length_eq
      have hminR : ∀ g : DataPoint → ℚ,
          listMinQ ((extractSeriesData ⟨i, n, dp', f⟩
              (strOrDefault params.targetSeries "")).map g)
            = listMinQ ((extractSeriesData ⟨i, n, dp, f⟩
                (strOrDefault params.targetSeries "")).map g) :=
        fun g => listMinQ_perm (hL.map g)
      have hmaxR : ∀ g : DataPoint → ℚ,
          listMaxQ ((extractSeriesData ⟨i, n, dp', f⟩
              (strOrDefault params.targetSeries "")).map g)
            = listMaxQ ((extractSeriesData ⟨i, n, dp, f⟩
                (strOrDefault params.targetSeries "")).map g) :=
        fun g => listMaxQ_perm (hL.map g)
      have hcoefR : ∀ g u : DataPoint → ℚ,
          coefficientFor ((extractSeriesData ⟨i, n, dp', f⟩
                (strOrDefault params.targetSeries "")).map g)
              ((extractSeriesData ⟨i, n, dp', f⟩
                (strOrDefault params.targetSeries "")).map u)
            = coefficientFor ((extractSeriesData ⟨i, n, dp, f⟩
                (strOrDefault params.targetSeries "")).map g)
              ((extractSeriesData ⟨i, n, dp, f⟩
                (strOrDefault params.targetSeries "")).map u) :=
        fun g u => coefficientFor_map_perm hL g u
      simp only [performRegressionAnalysis]
      rw [if_neg h1, if_neg h1, hvl, if_neg h2, if_neg h2]
      simp only [Except.map, regressionScalars, combineSeriesForAnalysis,
        normalizeSeries, Function.comp_def, List.map_map, List.zip_map', hlook]
      simp only [range_map_pred]
      simp only [List.zip_map', List.map_map]
      simp only [hminR, hmaxR, hcoefR, hsum, hlen]

/-- Timestamps array of a regression outcome (positional, in input order). -/
def regressionTimestamps (r : Except AnalysisError AnalysisResult) : Option (List Int) :=
  match r with
  | .ok res =>
    match res.results with
    | .regression rr => some rr.timestamps
    | _ => none
  | .error _ => none

/-- Shuffled permutation of the C6 dataset. -/
def exampleRegDataShuffled : TimeSeriesData :=
  ⟨"d6", "n6", [⟨2, 3, none, none, some "T"⟩, ⟨2, 1, none, none, some "P"⟩,
                ⟨1, 1, none, none, some "T"⟩, ⟨1, 0, none, none, some "P"⟩], false⟩

/-- Regression options for the C6 example: target T, predictor P. -/
def regressionOptions : AnalysisOptions :=
  ⟨.regression, { targetSeries := some "T", predictorSeries := some ["P"] }⟩

/-- C6 counterexample: on a time-sorted dataset and a shuffled copy of the
same points, regression returns different results: the timestamps (and
predictions) arrays follow the input order, here [1, 2] versus [2, 1]. -/
theorem claim6_counterexample :
    analyzeTimeSeries ⟨"id6", 0⟩ exampleRegDataShuffled regressionOptions
      ≠ analyzeTimeSeries ⟨"id6", 0⟩ exampleRegData regressionOptions := by
  intro h
  have e1 : regressionTimestamps
      (analyzeTimeSeries ⟨"id6", 0⟩ exampleRegDataShuffled regressionOptions)
      = some [2, 1] := rfl
  have e2 : regressionTimestamps
      (analyzeTimeSeries ⟨"id6", 0⟩ exampleRegData regressionOptions)
      = some [1, 2] := rfl
  rw [h, e2] at e1
  exact absurd e1 (by decide)

/-- Working point sequence resolved by analyzeTimeSeries for a target
series option. -/
def resolvedPoints (data : TimeSeriesData) (targetSeriesId : Option String) :
    List DataPoint :=
  match targetSeriesId with
  | some tid => extractSeriesData data tid
  | none => data.dataPoints

/-- C6 amended: with a fixed environment, analyzing a time-sorted copy and a
shuffled permutation of the same points gives identical descriptive results
whenever the resolved sequence has pairwise distinct timestamps, and
identical regression coefficient, intercept, rSquared and mse outputs
whenever no series has two points at one timestamp; the regression
timestamps and predictions arrays follow the input order and may differ. -/
theorem claim6_order_independence (env : Env) (i n : String) (f : Bool)
    (dp dp' : List DataPoint) (hperm : dp'.Perm dp) :
    (∀ params : AnalysisParameters,
      (resolvedPoints ⟨i, n, dp, f⟩ (strOrNull params.targetSeries)).Pairwise
        (fun p q => p.timestamp ≠ q.timestamp) →
      analyzeTimeSeries env ⟨i, n, dp', f⟩ ⟨.descriptive, params⟩
        = analyzeTimeSeries env ⟨i, n, dp, f⟩ ⟨.descriptive, params⟩)
    ∧ (∀ params : AnalysisParameters,
      dp.Pairwise (fun p q => strOrDefault p.seriesId n = strOrDefault q.seriesId n
        → p.timestamp ≠ q.timestamp) →
      (analyzeTimeSeries env ⟨i, n, dp', f⟩ ⟨.regression, params⟩).map regressionScalars
        = (analyzeTimeSeries env ⟨i, n, dp, f⟩ ⟨.regression, params⟩).map
            regressionScalars) := by
  constructor
  · intro params hdist
    simp only [analyzeTimeSeries]
    rw [if_neg (by simp), if_neg (by simp)]
    cases hts : strOrNull params.targetSeries with
    | none =>
      dsimp only
      rw [hts] at hdist
      rw [sortDataPointsByTime_perm_eq hperm hdist]
      simp [dispatchAnalysis, performDescriptiveAnalysis]
    | some tid =>
      dsimp only
      have hE := extract_perm i n f hperm tid
      rw [hts] at hdist
      by_cases hemp : (extractSeriesData ⟨i, n, dp, f⟩ tid).length = 0
      · have hemp' : (extractSeriesData ⟨i, n, dp', f⟩ tid).length = 0 := by
          rw [hE.length_eq]; exact hemp
        rw [if_pos hemp, if_pos hemp']
      · have hemp' : ¬(extractSeriesData ⟨i, n, dp', f⟩ tid).length = 0 := by
          rw [hE.length_eq]; exact hemp
        rw [if_neg hemp', if_neg hemp]
        rw [sortDataPointsByTime_perm_eq hE hdist]
        simp [dispatchAnalysis, performDescriptiveAnalysis]
  · intro params hatmost
    simp only [analyzeTimeSeries]
    cases hts : strOrNull params.targetSeries with
    | none =>
      rw [if_pos (by simp), if_pos (by simp)]
    | some tid =>
      rw [if_neg (by simp), if_neg (by simp)]
      dsimp only
      have hE := extract_perm i n f hperm tid
      by_cases hemp : (extractSeriesData ⟨i, n, dp, f⟩ tid).length = 0
      · have hemp' : (extractSeriesData ⟨i, n, dp', f⟩ tid).length = 0 := by
          rw [hE.length_eq]; exact hemp
        rw [if_pos hemp, if_pos hemp']
      · have hemp' : ¬(extractSeriesData ⟨i, n, dp', f⟩ tid).length = 0 := by
          rw [hE.length_eq]; exact hemp
        rw [if_neg hemp', if_neg hemp]
        dsimp only [dispatchAnalysis]
        exact regression_scalars_perm env i n f hperm hatmost params

/-- Witness for C6 amended: a two-point series analyzed descriptively gives
the same result for the sorted input and its shuffle. -/
theorem claim6_order_independence_witness :
    analyzeTimeSeries ⟨"w6", 0⟩
        ⟨"dw", "nw", [⟨2, 5, none, none, none⟩, ⟨1, 4, none, none, none⟩], false⟩
        ⟨.descriptive, {}⟩
      = analyzeTimeSeries ⟨"w6", 0⟩
        ⟨"dw", "nw", [⟨1, 4, none, none, none⟩, ⟨2, 5, none, none, none⟩], false⟩
        ⟨.descriptive, {}⟩ :=
  (claim6_order_independence ⟨"w6", 0⟩ "dw" "nw" false
    [⟨1, 4, none, none, none⟩, ⟨2, 5, none, none, none⟩]
    [⟨2, 5, none, none, none⟩, ⟨1, 4, none, none, none⟩]
    (List.Perm.swap _ _ _)).1 {} (by decide)

end SocrQI
